import Mathlib

/-!
Verification of the regenmaschine client library's session / request layer
against its natural-language specification.

The development shallowly embeds:
* `regenmaschine/api.py` — the `Response` normalizer (`Response.__init__`,
  `Response.raise_for_status`) and the `broken_remote_api` decorator;
* `regenmaschine/endpoints/zone.py` — `Zone.all`;
* `regenmaschine/watering.py` — `Watering.log` and `Watering.runs`;
* the Controller / Client request-dispatch layer, whose source is not in the
  tree (only its tests are); those parts are modelled from the specification
  and are marked `Modelled from the spec:` in their doc comments.
-/

namespace Regenmaschine

/-! ## Embedding of `regenmaschine/api.py`: the `Response` normalizer -/

/-- A raw HTTP response as seen by `Response.__init__`: HTTP status code,
reason phrase, the parsed JSON body (reduced to its integer fields, the only
ones the error layer reads via `self.body.get('errorType')`), and the
originating request URL. -/
structure RawResponse where
  status : Nat
  reason : String
  body : List (String × Int)
  url : String
  deriving DecidableEq, Repr

/-- Semantics of `requests.Response.ok` / `raise_for_status`: an HTTP error is
raised exactly for client errors (400–499) and server errors (500–599), so
`ok` is true iff the status is outside 400–599. -/
def statusOk (s : Nat) : Bool :=
  !(400 ≤ s && s < 600)

/-- The message of the `HTTPError` raised by `requests`'
`Response.raise_for_status`: status, "Client Error"/"Server Error", the
reason phrase and the URL. -/
def requestsStatusMessage (status : Nat) (reason url : String) : String :=
  if 400 ≤ status && status < 500 then
    toString status ++ " Client Error: " ++ reason ++ " for url: " ++ url
  else
    toString status ++ " Server Error: " ++ reason ++ " for url: " ++ url

/-- Modelled from the spec: the static remote error-code table
(`regenmaschine/remote_status_codes.py`, imported by `api.py` as `rsc.CODES`,
is not under `src/`). Per the spec it is a fixed, read-only mapping from
numeric remote error codes to human-readable messages, with a generic
"unknown error" entry at code 99 used as the fallback (`rsc.CODES[99]` in
`api.py`). Representative entries suffice for the claims, which are about
the lookup discipline, not particular message texts. -/
def CODES : List (Int × String) :=
  [(1, "The email was not found in the system"),
   (2, "Internal error"),
   (3, "Invalid request"),
   (4, "Not authenticated"),
   (5, "Not found"),
   (99, "Unknown error")]

/-- Resolution rule `self.error = rsc.CODES[code] if code in rsc.CODES.keys() else rsc.CODES[99]`
(api.py lines 48–51). -/
def resolveRemoteError (code : Int) : String :=
  match List.lookup code CODES with
  | some msg => msg
  | none => (List.lookup 99 CODES).getD "Unknown error"

/-- The state of the `Response` wrapper object (api.py `Response`):
parsed body, optional resolved error message, the underlying raw response's
status and reason, the request URL, and the success flag. -/
structure Response where
  body : List (String × Int)
  error : Option String
  status : Nat
  reason : String
  request_url : String
  successful : Bool
  deriving DecidableEq, Repr

/-- Constructor `Response.__init__`: stores the parsed body and request URL and sets
`self.successful = requests_response_object.ok`. -/
def Response.init (r : RawResponse) : Response :=
  { body := r.body
    error := none
    status := r.status
    reason := r.reason
    request_url := r.url
    successful := statusOk r.status }

/-- Python truthiness of `remote_error_code and remote_error_code != 0`
for `remote_error_code = self.body.get('errorType')`: `None` and `0` are
falsy, so the condition holds iff the field is present with a non-zero
value. Both conjuncts of the source condition are kept. -/
def errorTypeIsError (code : Option Int) : Bool :=
  (match code with
   | none => false
   | some c => c != 0) && code != some 0

/-- Formatting `'{}'.format(self.error)`: Python renders `None` as the text "None". -/
def formatOptError (e : Option String) : String :=
  match e with
  | none => "None"
  | some s => s

/-- Method `Response.raise_for_status` (api.py lines 34–55). Returns the final
state of the `Response` object together with the message of the raised
`HTTPError`, if any:
1. `self.object.raise_for_status()` — raises for HTTP 400–599 before
   anything else;
2. otherwise reads `errorType` from the body; if present and non-zero,
   sets `successful = False` and resolves `self.error` through the code
   table (fallback `CODES[99]`);
3. finally raises `'{} for url: {}'.format(self.error, self.request_url)`
   when `self.successful` is false. -/
def Response.raise_for_status (resp : Response) : Response × Option String :=
  if 400 ≤ resp.status && resp.status < 600 then
    (resp, some (requestsStatusMessage resp.status resp.reason resp.request_url))
  else
    let remote_error_code := List.lookup "errorType" resp.body
    let resp' :=
      if errorTypeIsError remote_error_code then
        { resp with
          successful := false
          error := some (resolveRemoteError (remote_error_code.getD 0)) }
      else resp
    if !resp'.successful then
      (resp', some (formatOptError resp'.error ++ " for url: " ++ resp'.request_url))
    else
      (resp', none)

/-- The normalization pipeline used by `BaseAPI._request` (api.py lines
99–103): wrap the raw response in `Response` and run `raise_for_status`.
First component: the final state of the wrapper; second: the raised error
message, `none` on success. -/
def normalize (r : RawResponse) : Response × Option String :=
  (Response.init r).raise_for_status

/-! ## Embedding of `broken_remote_api` (api.py lines 130–142) -/

/-- The state of a `BaseAPI` object (api.py `BaseAPI.__init__`), as far as
the decorator reads it: only `self.using_remote_api` is consulted. The other
constructor fields are kept to mirror the source object. -/
structure BaseAPI where
  url : String
  using_remote_api : Bool
  access_token : Option String
  cookies : List (String × String)
  timeout : Nat
  verify_ssl : Bool
  deriving DecidableEq, Repr

/-- An effectful API operation: from the `BaseAPI` object it produces a
value together with the number of network calls it performs. -/
def APIOperation (α : Type) : Type :=
  BaseAPI → α × Nat

/-- Decorator `broken_remote_api` (api.py lines 130–142): wraps an operation; if
`self.using_remote_api` it raises `BrokenAPICall` with the function's name
— performing no network call — else it runs the wrapped function unchanged.
The result pairs the outcome (`Except` the `BrokenAPICall` message) with
the number of network calls performed. -/
def broken_remote_api (functionName : String) (function : APIOperation α)
    (self : BaseAPI) : Except String α × Nat :=
  if self.using_remote_api then
    (Except.error (functionName ++ "() currently broken in remote API"), 0)
  else
    (Except.ok (function self).1, (function self).2)

/-! ## Embedding of `Zone.all` (`regenmaschine/endpoints/zone.py`, `details=False` branch) -/

/-- A zone record from `results[0]["zones"]`, reduced to the fields
`Zone.all` reads in its `details=False` branch: `uid` and the optional
`active` key (`none` models the key being absent). -/
structure ZoneRecordIn where
  uid : Nat
  active : Option Bool
  deriving DecidableEq, Repr

/-- A zone record after `Zone.all` has run `if "active" not in zone:
zone["active"] = True` — the `active` key is now always present. -/
structure ZoneRecordOut where
  uid : Nat
  active : Bool
  deriving DecidableEq, Repr

/-- Defaulting step `if "active" not in zone: zone["active"] = True` (zone.py lines 36–37). -/
def applyActiveDefault (z : ZoneRecordIn) : ZoneRecordOut :=
  { uid := z.uid, active := z.active.getD true }

/-- Python-dict assignment `zones[k] = v`: update in place if the key is
present, else append in insertion order. -/
def dictInsert (m : List (Nat × α)) (k : Nat) (v : α) : List (Nat × α) :=
  if m.any (fun p => p.1 == k) then
    m.map (fun p => if p.1 == k then (k, v) else p)
  else
    m ++ [(k, v)]

/-- Method `Zone.all` with `details=False` (zone.py lines 19–43): iterate over
`results[0]["zones"]`, default a missing `active` key to `True`, and store
each zone under its `uid` when `zone_data["active"] or include_inactive`. -/
def Zone.all (zones : List ZoneRecordIn) (include_inactive : Bool) :
    List (Nat × ZoneRecordOut) :=
  zones.foldl
    (fun acc zone =>
      let zone_data := applyActiveDefault zone
      if zone_data.active || include_inactive then
        dictInsert acc zone_data.uid zone_data
      else acc)
    []

/-! ## Embedding of `Watering.log` / `Watering.runs` (`regenmaschine/watering.py`) -/

/-- A `datetime.date`. In Python a date object is always truthy; only
`None` (modelled as `Option.none` at use sites) is falsy. -/
structure PyDate where
  year : Nat
  month : Nat
  day : Nat
  deriving DecidableEq, Repr

/-- Zero-pad a number to two digits (strftime `%m`, `%d`). -/
def pad2 (n : Nat) : String :=
  if n < 10 then "0" ++ toString n else toString n

/-- Zero-pad a number to four digits (strftime `%Y`). -/
def pad4 (n : Nat) : String :=
  if n < 10 then "000" ++ toString n
  else if n < 100 then "00" ++ toString n
  else if n < 1000 then "0" ++ toString n
  else toString n

/-- Formatting `date.strftime('%Y-%m-%d')`. -/
def PyDate.strftimeYMD (d : PyDate) : String :=
  pad4 d.year ++ "-" ++ pad2 d.month ++ "-" ++ pad2 d.day

/-- The endpoint computed by `Watering.log` (watering.py lines 13–27):
start from `watering/log`, append `/details` when `details`, and append
`/<date>/<days>` only when `date and days` is truthy (a `None` date, a
`None` days, or `days == 0` all leave the undated endpoint). The `GET`
request is then issued against this endpoint. -/
def Watering.logEndpoint (date : Option PyDate) (days : Option Int)
    (details : Bool) : String :=
  let endpoint := "watering/log"
  let endpoint := if details then endpoint ++ "/details" else endpoint
  match date, days with
  | some d, some n =>
      if n != 0 then endpoint ++ "/" ++ d.strftimeYMD ++ "/" ++ toString n
      else endpoint
  | _, _ => endpoint

/-- The endpoint computed by `Watering.runs` (watering.py lines 35–43):
`watering/past`, with `/<date>/<days>` appended only when `date and days`
is truthy. -/
def Watering.runsEndpoint (date : Option PyDate) (days : Option Int) : String :=
  let endpoint := "watering/past"
  match date, days with
  | some d, some n =>
      if n != 0 then endpoint ++ "/" ++ d.strftimeYMD ++ "/" ++ toString n
      else endpoint
  | _, _ => endpoint

/-! ## Spec-modelled Controller / Client layer

The Controller's `request` dispatch and the Client registry are code of this
repository that is not under `src/` — only their tests
(`tests/test_client.py`) and callers (the endpoint wrappers) are. The
definitions below are modelled from the specification (§4.3, §4.4, §7). -/

/-- Modelled from the spec: the failure kinds a single normalized call can
surface (§4.2 step 1, §7); the errors module defining them is not under
`src/`. `malformedResponse` — body not parseable as JSON — is a distinct
kind from an API-level error (`apiError`); `serverDisconnected` is what a
second consecutive peer disconnect propagates as. -/
inductive APIFailure where
  | malformedResponse
  | apiError (msg : String)
  | serverDisconnected
  deriving DecidableEq, Repr

/-- Modelled from the spec: the user-visible error taxonomy classes (§7);
the errors module is not under `src/`. -/
inductive ErrorClass where
  | requestError
  | tokenExpiredError
  | unknownAPICallError
  deriving DecidableEq, Repr

/-- Modelled from the spec (§7): how each normalized failure kind is
surfaced to the caller. `MalformedResponseError` is "surfaced as
`RequestError`"; an API-level error and a repeated peer disconnect are
likewise `RequestError`s. -/
def APIFailure.errorClass : APIFailure → ErrorClass
  | .malformedResponse => .requestError
  | .apiError _ => .requestError
  | .serverDisconnected => .requestError

/-- Modelled from the spec (§4.2 step 1): the normalization front end that
parses the body as JSON before handing it to the `Response` wrapper of
`api.py`; the async client code performing this is not under `src/`.
`parsed = none` models a body that cannot be parsed as JSON and fails with
the `MalformedResponseError` kind; a parseable body goes through the
embedded `Response.init` / `raise_for_status`, whose raised message becomes
an API-level error. -/
def normalizeParsed (status : Nat) (reason : String)
    (parsed : Option (List (String × Int))) (url : String) :
    Except APIFailure Response :=
  match parsed with
  | none => Except.error .malformedResponse
  | some body =>
      match normalize { status := status, reason := reason, body := body, url := url } with
      | (resp, none) => Except.ok resp
      | (_, some msg) => Except.error (.apiError msg)

/-- Modelled from the spec: the outcome of one transport attempt (§4.1) —
either a value, a "connection reset / peer closed mid-request"
(`PeerDisconnected`), or any other normalized failure. -/
inductive AttemptOutcome (α : Type) where
  | success (value : α)
  | peerDisconnected
  | failure (e : APIFailure)
  deriving DecidableEq, Repr

/-- Modelled from the spec (§4.3 steps 4 and 6): the Controller's retry
policy, whose code is not under `src/` (only
`test_retry_only_once_on_server_disconnected`). The transport is a fresh
invocation per attempt, modelled as a function from the attempt index to
its outcome. If the first attempt fails with `PeerDisconnected`, the entire
call is retried exactly once; a second `PeerDisconnected` propagates as a
`RequestError`-class failure. Any other failure propagates immediately with
no retry. Returns the result and the number of transport attempts made. -/
def Controller.requestWithRetry (transport : Nat → AttemptOutcome α) :
    Except APIFailure α × Nat :=
  match transport 0 with
  | .success v => (Except.ok v, 1)
  | .failure e => (Except.error e, 1)
  | .peerDisconnected =>
      match transport 1 with
      | .success v => (Except.ok v, 2)
      | .failure e => (Except.error e, 2)
      | .peerDisconnected => (Except.error .serverDisconnected, 2)

/-- Modelled from the spec (§3): the mutable session state of a Controller
— access token, absolute expiration timestamp, cookies — plus its immutable
device identity; the Controller class is not under `src/`. -/
structure SpecController where
  mac : String
  name : String
  host : String
  port : Nat
  use_ssl : Bool
  access_token : String
  access_token_expiration : Int
  cookies : List (String × String)
  deriving DecidableEq, Repr

/-- Modelled from the spec: the outcome a `request()` call surfaces. -/
inductive RequestOutcome (α : Type) where
  | ok (value : α)
  | tokenExpiredError
  | requestError (e : APIFailure)
  deriving DecidableEq, Repr

/-- Modelled from the spec (§4.3 step 1, §8): `request()`'s proactive
token-expiry handling, whose code is not under `src/` (only
`test_token_expired_implicit_exception`). If the current time has reached
the stored expiration, exactly one re-authentication (re-run of the login
handshake, outcome `reauth`: a fresh token and expiration, or `none` on
failure) is performed before the original call is attempted; a failed
re-authentication surfaces `TokenExpiredError` without attempting the call
and leaves the Controller state unchanged — still expired, hence unusable
until a fresh explicit login. Returns the result, the final Controller
state, the number of re-authentications performed, and the number of times
the original call was attempted. -/
def SpecController.request (now : Int) (reauth : Option (String × Int))
    (doCall : SpecController → RequestOutcome α) (c : SpecController) :
    RequestOutcome α × SpecController × Nat × Nat :=
  if c.access_token_expiration ≤ now then
    match reauth with
    | none => (.tokenExpiredError, c, 1, 0)
    | some (tok, exp) =>
        let c' := { c with access_token := tok, access_token_expiration := exp }
        (doCall c', c', 1, 1)
  else
    (doCall c, c, 0, 1)

/-- Modelled from the spec (§4.4, §6): the device identity returned by the
provisioning endpoint during a local login; the Client code is not under
`src/` (only `test_load_local_skip`). -/
structure DeviceIdentity where
  mac : String
  name : String
  hwVer : String
  swVer : String
  apiVer : String
  deriving DecidableEq, Repr

/-- Modelled from the spec (§4.4): the local login handshake environment —
a deterministic map from the `load_local` arguments (host, password, port,
use_ssl) to the session artifacts (access token, expiration) and the device
identity obtained from the provisioning endpoint. -/
structure LocalLoginEnv where
  handshake : String → String → Nat → Bool → (String × Int) × DeviceIdentity

/-- Modelled from the spec (§2, §3): the Client's registry of Controllers,
keyed by device identity (MAC); the Client class is not under `src/`. -/
structure Client where
  controllers : List (String × SpecController)
  deriving DecidableEq, Repr

/-- Modelled from the spec (§4.4): the Controller populated from a fresh
local login handshake — device identity and name from the provisioning
endpoint, network location from the `load_local` arguments, token and
expiration from the session artifacts. -/
def newLocalController (env : LocalLoginEnv) (host password : String)
    (port : Nat) (use_ssl : Bool) : SpecController :=
  { mac := (env.handshake host password port use_ssl).2.mac
    name := (env.handshake host password port use_ssl).2.name
    host := host
    port := port
    use_ssl := use_ssl
    access_token := (env.handshake host password port use_ssl).1.1
    access_token_expiration := (env.handshake host password port use_ssl).1.2
    cookies := [] }

/-- Modelled from the spec (§4.4): `Client.load_local` — perform the login
handshake and identity query; if a Controller with this device identity
(MAC) is already registered, discard the new session artifacts and return
the existing Controller unchanged; otherwise register and return a new
Controller. Duplication is detected by MAC alone, never by host or port. -/
def Client.load_local (env : LocalLoginEnv) (client : Client) (host password : String)
    (port : Nat) (use_ssl : Bool) : Client × SpecController :=
  match List.lookup (env.handshake host password port use_ssl).2.mac client.controllers with
  | some existing => (client, existing)
  | none =>
      ({ controllers := client.controllers
            ++ [((env.handshake host password port use_ssl).2.mac,
                 newLocalController env host password port use_ssl)] },
       newLocalController env host password port use_ssl)

/-! ## Theorems -/

/-- C1: for every raw HTTP response processed by the `Response` normalizer,
the success flag of the resulting response is false whenever either the
HTTP status indicates failure or the body's embedded `errorType` field is
present and non-zero; both signals are consulted and merged — the final
flag is exactly the conjunction of "HTTP status ok" and "no embedded
error". -/
theorem C1_success_flag_merges_both_signals (r : RawResponse) :
    (normalize r).1.successful
      = (statusOk r.status && !errorTypeIsError (List.lookup "errorType" r.body)) := by
  simp only [normalize, Response.raise_for_status, Response.init, statusOk]
  split_ifs with h1 h2 h3 <;> simp_all

/-- C2 counterexample: a response with failing HTTP status 400 whose body
carries `errorType = 4` is NOT reported with the code-table message.
`self.object.raise_for_status()` raises first, with the generic
status-derived message; the body's code is never consulted (the resolved
`error` field stays `None`) and the raised message differs from the
code-table one. -/
theorem C2_counterexample_status_raises_before_code_table :
    (normalize { status := 400, reason := "Bad Request",
                 body := [("errorType", 4)], url := "https://h/api/4/zone" }).2
        = some (requestsStatusMessage 400 "Bad Request" "https://h/api/4/zone")
    ∧ (normalize { status := 400, reason := "Bad Request",
                   body := [("errorType", 4)], url := "https://h/api/4/zone" }).1.error
        = none
    ∧ requestsStatusMessage 400 "Bad Request" "https://h/api/4/zone"
        ≠ resolveRemoteError 4 ++ " for url: " ++ "https://h/api/4/zone" := by
  refine ⟨rfl, rfl, ?_⟩
  decide

/-- C2 (amended): for every response classified as not successful,
`raise_for_status` fails with an error carrying a resolved message and the
request URL, but the code-table message is used only when the HTTP status
itself is successful: a successful status with a present non-zero
`errorType` raises the code-table-resolved message (with the URL); a
failing HTTP status (400–599) raises the generic status-derived message
without consulting the body's code; otherwise nothing is raised. -/
theorem C2_amended_code_table_only_on_ok_status (r : RawResponse) :
    (statusOk r.status = true →
        errorTypeIsError (List.lookup "errorType" r.body) = true →
        (normalize r).2
          = some (resolveRemoteError ((List.lookup "errorType" r.body).getD 0)
                    ++ " for url: " ++ r.url)) ∧
    (statusOk r.status = false →
        (normalize r).2 = some (requestsStatusMessage r.status r.reason r.url)
        ∧ (normalize r).1.error = none) ∧
    (statusOk r.status = true →
        errorTypeIsError (List.lookup "errorType" r.body) = false →
        (normalize r).2 = none) := by
  unfold normalize Response.raise_for_status Response.init statusOk
  refine ⟨fun hok herr => ?_, fun hbad => ?_, fun hok herr => ?_⟩
  · rw [Bool.not_eq_true'] at hok
    simp [hok, herr, formatOptError]
  · rw [Bool.not_eq_false'] at hbad
    simp [hbad]
  · rw [Bool.not_eq_true'] at hok
    simp [hok, herr]

/-- C2 amended, witness: a status-200 response with `errorType = 2` raises
the code-table message for code 2 together with the request URL. -/
theorem C2_amended_code_table_witness :
    (normalize { status := 200, reason := "OK",
                 body := [("errorType", 2)], url := "https://h/api" }).2
      = some "Internal error for url: https://h/api" := by
  have h := (C2_amended_code_table_only_on_ok_status
      { status := 200, reason := "OK",
        body := [("errorType", 2)], url := "https://h/api" }).1 rfl rfl
  exact h.trans (by decide)

/-- C8: for a response with successful HTTP status (e.g. 200), a present
non-zero `errorType` classifies the response as failed, with the resolved
message being the table entry when the code is in the static table and the
generic entry at code 99 otherwise; `errorType` absent or 0 leaves the
response classified as successful with nothing raised. -/
theorem C8_remote_code_classification (r : RawResponse)
    (h : statusOk r.status = true) :
    (∀ c : Int, List.lookup "errorType" r.body = some c → c ≠ 0 →
        (normalize r).1.successful = false
        ∧ (normalize r).1.error = some (resolveRemoteError c)) ∧
    (∀ (c : Int) (m : String), List.lookup c CODES = some m →
        resolveRemoteError c = m) ∧
    (∀ c : Int, List.lookup c CODES = none →
        resolveRemoteError c = resolveRemoteError 99) ∧
    ((List.lookup "errorType" r.body = none ∨ List.lookup "errorType" r.body = some 0) →
        (normalize r).1.successful = true ∧ (normalize r).2 = none) := by
  have h' := h
  unfold statusOk at h'
  rw [Bool.not_eq_true'] at h'
  refine ⟨fun c hc hcne => ?_, fun c m hm => ?_, fun c hc => ?_, fun hz => ?_⟩
  · have herr : errorTypeIsError (some c) = true := by
      simp [errorTypeIsError, hcne]
    unfold normalize Response.raise_for_status Response.init
    simp [h', hc, herr]
  · simp [resolveRemoteError, hm]
  · simp only [resolveRemoteError, hc]
    decide
  · unfold normalize Response.raise_for_status Response.init
    rcases hz with hz | hz <;> simp [h, h', hz, errorTypeIsError]

/-- C8 witness: a status-200 response with the out-of-table code 77 is
classified as failed and resolved through `resolveRemoteError 77` (the
generic code-99 entry). -/
theorem C8_remote_code_classification_witness :
    (normalize { status := 200, reason := "OK",
                 body := [("errorType", 77)], url := "u" }).1.successful = false
    ∧ (normalize { status := 200, reason := "OK",
                   body := [("errorType", 77)], url := "u" }).1.error
        = some (resolveRemoteError 77) :=
  (C8_remote_code_classification
      { status := 200, reason := "OK", body := [("errorType", 77)], url := "u" }
      (by decide)).1 77 (by decide) (by decide)

/-- C6: an operation wrapped by `broken_remote_api` fails immediately with
the `BrokenAPICall` message — performing zero network calls — whenever the
session is in remote mode, and in local mode runs the underlying operation
unchanged (same value, same network calls). -/
theorem C6_broken_remote_api_gate {α : Type} (functionName : String)
    (function : APIOperation α) (self : BaseAPI) :
    (self.using_remote_api = true →
        broken_remote_api functionName function self
          = (Except.error (functionName ++ "() currently broken in remote API"), 0)) ∧
    (self.using_remote_api = false →
        broken_remote_api functionName function self
          = (Except.ok (function self).1, (function self).2)) := by
  unfold broken_remote_api
  constructor
  · intro h
    simp [h]
  · intro h
    simp [h]

/-- C6 witness: a remote-mode `BaseAPI` object makes the wrapped call fail
with the `BrokenAPICall` message and zero network calls. -/
theorem C6_broken_remote_api_gate_witness :
    broken_remote_api "zones"
        (fun _ => ((42 : Nat), 3))
        { url := "https://api.rainmachine.com", using_remote_api := true,
          access_token := none, cookies := [], timeout := 10, verify_ssl := true }
      = (Except.error "zones() currently broken in remote API", 0) :=
  (C6_broken_remote_api_gate "zones" (fun _ => ((42 : Nat), 3))
      { url := "https://api.rainmachine.com", using_remote_api := true,
        access_token := none, cookies := [], timeout := 10, verify_ssl := true }).1 rfl

/-- C10: `Watering.log` and `Watering.runs` use the date-scoped endpoint
(`/<YYYY-MM-DD>/<days>` appended) only when both the date and days
arguments are truthy; a `None` date, a `None` days, or `days = 0` leaves
the undated endpoint, with the supplied argument ignored rather than
failing. -/
theorem C10_watering_dated_endpoint_selection (date : Option PyDate)
    (days : Option Int) (details : Bool) :
    (∀ (d : PyDate) (n : Int), date = some d → days = some n → n ≠ 0 →
        Watering.logEndpoint date days details
          = (if details then "watering/log/details" else "watering/log")
              ++ "/" ++ d.strftimeYMD ++ "/" ++ toString n
        ∧ Watering.runsEndpoint date days
          = "watering/past" ++ "/" ++ d.strftimeYMD ++ "/" ++ toString n) ∧
    ((date = none ∨ days = none ∨ days = some 0) →
        Watering.logEndpoint date days details
          = (if details then "watering/log/details" else "watering/log")
        ∧ Watering.runsEndpoint date days = "watering/past") := by
  constructor
  · intro d n hd hn hne
    subst hd
    subst hn
    unfold Watering.logEndpoint Watering.runsEndpoint
    have hb : (n != 0) = true := by simpa using hne
    cases details <;> simp [hb]
  · intro hz
    unfold Watering.logEndpoint Watering.runsEndpoint
    rcases hz with hz | hz | hz
    · subst hz
      cases days <;> cases details <;> simp
    · subst hz
      cases date <;> cases details <;> simp
    · subst hz
      cases date <;> cases details <;> simp

/-- C10 witness: `Watering.log` with date 2018-06-29, `days = 2`,
`details = False` targets `watering/log/2018-06-29/2`, while a `days = 0`
call falls back to the undated `watering/log`. -/
theorem C10_watering_dated_endpoint_selection_witness :
    Watering.logEndpoint (some ⟨2018, 6, 29⟩) (some 2) false
      = "watering/log/2018-06-29/2"
    ∧ Watering.runsEndpoint (some ⟨2018, 6, 29⟩) (some 0) = "watering/past" := by
  constructor
  · have h := ((C10_watering_dated_endpoint_selection (some ⟨2018, 6, 29⟩)
        (some 2) false).1 ⟨2018, 6, 29⟩ 2 rfl rfl (by decide)).1
    exact h.trans (by decide)
  · exact ((C10_watering_dated_endpoint_selection (some ⟨2018, 6, 29⟩)
        (some 0) false).2 (Or.inr (Or.inr rfl))).2

/-- Helper: python-dict assignment with a key absent from the dict appends
the binding in insertion order. -/
theorem dictInsert_append (m : List (Nat × α)) (k : Nat) (v : α)
    (h : ∀ p ∈ m, p.1 ≠ k) : dictInsert m k v = m ++ [(k, v)] := by
  unfold dictInsert
  have hany : m.any (fun p => p.1 == k) = false := by
    rw [List.any_eq_false]
    intro p hp
    simpa using h p hp
  simp [hany]

/-- Helper: the `Zone.all` fold over zones with pairwise-distinct uids,
generalized over the accumulator, appends exactly the defaulted records
passing the active/include_inactive test, keyed by uid. -/
theorem zoneAll_foldl (include_inactive : Bool) :
    ∀ (zones : List ZoneRecordIn) (acc : List (Nat × ZoneRecordOut)),
      (∀ p ∈ acc, ∀ z ∈ zones, p.1 ≠ z.uid) →
      (zones.map ZoneRecordIn.uid).Nodup →
      zones.foldl
          (fun acc zone =>
            let zone_data := applyActiveDefault zone
            if zone_data.active || include_inactive then
              dictInsert acc zone_data.uid zone_data
            else acc) acc
        = acc ++ ((zones.map applyActiveDefault).filter
              (fun z => z.active || include_inactive)).map (fun z => (z.uid, z)) := by
  intro zones
  induction zones with
  | nil =>
      intro acc _ _
      simp
  | cons z zs ih =>
      intro acc hdisj hnd
      have hnd' : (zs.map ZoneRecordIn.uid).Nodup := by
        rw [List.map_cons, List.nodup_cons] at hnd
        exact hnd.2
      have hzuid : z.uid ∉ zs.map ZoneRecordIn.uid := by
        rw [List.map_cons, List.nodup_cons] at hnd
        exact hnd.1
      rw [List.foldl_cons]
      by_cases hp : ((applyActiveDefault z).active || include_inactive) = true
      · have hins : dictInsert acc (applyActiveDefault z).uid (applyActiveDefault z)
            = acc ++ [((applyActiveDefault z).uid, applyActiveDefault z)] := by
          apply dictInsert_append
          intro p hpmem
          have hne := hdisj p hpmem z (List.mem_cons_self z zs)
          simpa [applyActiveDefault] using hne
        have hstep := ih (acc ++ [((applyActiveDefault z).uid, applyActiveDefault z)])
          (by
            intro p hpmem w hw
            rcases List.mem_append.mp hpmem with hpl | hpr
            · exact hdisj p hpl w (List.mem_cons_of_mem z hw)
            · have hpz : p = ((applyActiveDefault z).uid, applyActiveDefault z) := by
                simpa using hpr
              subst hpz
              intro hcontra
              apply hzuid
              rw [applyActiveDefault] at hcontra
              simp only at hcontra
              rw [hcontra]
              exact List.mem_map.mpr ⟨w, hw, rfl⟩)
          hnd'
        simp only [hp, if_true, hins] at hstep ⊢
        rw [hstep, List.map_cons, List.filter_cons_of_pos (by simpa using hp),
          List.map_cons, List.append_assoc]
        rfl
      · have hpf : ((applyActiveDefault z).active || include_inactive) = false := by
          simpa using hp
        have hstep := ih acc
          (fun p hpmem w hw => hdisj p hpmem w (List.mem_cons_of_mem z hw))
          hnd'
        simp only [hpf, Bool.false_eq_true, if_false] at hstep ⊢
        rw [hstep, List.map_cons, List.filter_cons_of_neg (by simp [hpf])]

/-- C9: `Zone.all` with `details=False` over zones with pairwise-distinct
uids yields exactly the mapping, keyed by uid, of the records whose
(defaulted) `active` value is truthy — plus the inactive ones when
`include_inactive` — and a record lacking the `active` key is treated as
active. -/
theorem C9_zone_all_active_filter (zones : List ZoneRecordIn)
    (include_inactive : Bool)
    (h : (zones.map ZoneRecordIn.uid).Nodup) :
    Zone.all zones include_inactive
      = ((zones.map applyActiveDefault).filter
            (fun z => z.active || include_inactive)).map (fun z => (z.uid, z))
    ∧ ∀ z : ZoneRecordIn, z.active = none → (applyActiveDefault z).active = true := by
  constructor
  · have hfold := zoneAll_foldl include_inactive zones [] (by simp) h
    simpa [Zone.all] using hfold
  · intro z hz
    simp [applyActiveDefault, hz]

/-- C9 witness: three zones — one missing the `active` key, one inactive,
one active — with `include_inactive = False` produce the uid-keyed mapping
of the first and third only, the first defaulted to active. -/
theorem C9_zone_all_active_filter_witness :
    Zone.all [⟨1, none⟩, ⟨2, some false⟩, ⟨3, some true⟩] false
      = [(1, ⟨1, true⟩), (3, ⟨3, true⟩)] := by
  have h := (C9_zone_all_active_filter [⟨1, none⟩, ⟨2, some false⟩, ⟨3, some true⟩]
      false (by decide)).1
  exact h.trans (by decide)

/-- C3: under the Controller's retry policy, a transport raising
`PeerDisconnected` exactly once and then succeeding makes the request
succeed with exactly two transport attempts; a transport raising
`PeerDisconnected` twice in a row makes the request fail as a
`RequestError`-class failure with exactly two transport attempts; and the
outcome depends only on the first two attempts — a third is never
consulted. -/
theorem C3_peer_disconnect_retry_once {α : Type} (t : Nat → AttemptOutcome α) :
    (∀ v : α, t 0 = .peerDisconnected → t 1 = .success v →
        Controller.requestWithRetry t = (Except.ok v, 2)) ∧
    (t 0 = .peerDisconnected → t 1 = .peerDisconnected →
        Controller.requestWithRetry t = (Except.error .serverDisconnected, 2)
        ∧ APIFailure.serverDisconnected.errorClass = ErrorClass.requestError) ∧
    (∀ t' : Nat → AttemptOutcome α, t' 0 = t 0 → t' 1 = t 1 →
        Controller.requestWithRetry t' = Controller.requestWithRetry t) := by
  refine ⟨fun v h0 h1 => ?_, fun h0 h1 => ?_, fun t' h0 h1 => ?_⟩
  · unfold Controller.requestWithRetry
    rw [h0, h1]
  · unfold Controller.requestWithRetry
    rw [h0, h1]
    exact ⟨rfl, rfl⟩
  · unfold Controller.requestWithRetry
    rw [h0, h1]

/-- C3 witness: a transport disconnecting on the first attempt and
succeeding on the second makes the request succeed with two attempts. -/
theorem C3_peer_disconnect_retry_once_witness :
    Controller.requestWithRetry
        (fun n => if n == 0 then AttemptOutcome.peerDisconnected
                  else AttemptOutcome.success (7 : Nat))
      = (Except.ok 7, 2) :=
  (C3_peer_disconnect_retry_once
      (fun n => if n == 0 then AttemptOutcome.peerDisconnected
                else AttemptOutcome.success (7 : Nat))).1 7 rfl rfl

/-- C5: a Controller whose stored access-token expiration is in the past
performs exactly one re-authentication on the next `request()` before the
original call is attempted; if the re-authentication fails, `request()`
surfaces `TokenExpiredError`, never attempts the call, leaves the
Controller state unchanged (still expired), and a further `request()` on
the resulting state fails the same way. -/
theorem C5_expired_token_single_reauth {α : Type} (c : SpecController)
    (now : Int) (reauth : Option (String × Int))
    (doCall : SpecController → RequestOutcome α)
    (h : c.access_token_expiration ≤ now) :
    ((SpecController.request now reauth doCall c).2.2.1 = 1) ∧
    (reauth = none →
        SpecController.request now reauth doCall c
          = (.tokenExpiredError, c, 1, 0)
        ∧ (SpecController.request now none doCall
              (SpecController.request now none doCall c).2.1).1
            = .tokenExpiredError) ∧
    (∀ (tok : String) (texp : Int), reauth = some (tok, texp) →
        SpecController.request now reauth doCall c
          = (doCall { c with access_token := tok, access_token_expiration := texp },
             { c with access_token := tok, access_token_expiration := texp }, 1, 1)) := by
  refine ⟨?_, fun hr => ?_, fun tok texp hr => ?_⟩
  · unfold SpecController.request
    rw [if_pos h]
    cases reauth with
    | none => rfl
    | some p =>
        cases p
        rfl
  · subst hr
    unfold SpecController.request
    rw [if_pos h]
    exact ⟨rfl, by rw [if_pos h]⟩
  · subst hr
    unfold SpecController.request
    rw [if_pos h]

/-- C5 witness: an expired Controller (expiration 0, now 5) with a failing
re-authentication surfaces `TokenExpiredError` with one re-authentication,
zero call attempts, and an unchanged Controller state. -/
theorem C5_expired_token_single_reauth_witness :
    SpecController.request 5 none (fun _ => RequestOutcome.ok (1 : Nat))
        { mac := "ab:cd:ef:12:34:56", name := "My House", host := "192.168.1.100",
          port := 8081, use_ssl := false, access_token := "12345abcdef",
          access_token_expiration := 0, cookies := [] }
      = (.tokenExpiredError,
         { mac := "ab:cd:ef:12:34:56", name := "My House", host := "192.168.1.100",
           port := 8081, use_ssl := false, access_token := "12345abcdef",
           access_token_expiration := 0, cookies := [] }, 1, 0) :=
  ((C5_expired_token_single_reauth
      { mac := "ab:cd:ef:12:34:56", name := "My House", host := "192.168.1.100",
        port := 8081, use_ssl := false, access_token := "12345abcdef",
        access_token_expiration := 0, cookies := [] }
      5 none (fun _ => RequestOutcome.ok (1 : Nat)) (by decide)).2.1 rfl).1

/-- C7: a raw response whose body cannot be parsed as JSON normalizes to
the `MalformedResponseError` kind, which no parseable body ever produces
(so it is distinguishable from an API-level error); that kind is surfaced
to the caller as a `RequestError`, and a transport attempt failing with it
is never retried — exactly one attempt is made. -/
theorem C7_malformed_response_no_retry (status : Nat) (reason url : String) :
    (normalizeParsed status reason none url = Except.error .malformedResponse) ∧
    (∀ body : List (String × Int),
        normalizeParsed status reason (some body) url
          ≠ Except.error .malformedResponse) ∧
    (APIFailure.malformedResponse.errorClass = ErrorClass.requestError) ∧
    (∀ t : Nat → AttemptOutcome Response,
        t 0 = .failure .malformedResponse →
        Controller.requestWithRetry t = (Except.error .malformedResponse, 1)) := by
  refine ⟨rfl, fun body hcontra => ?_, rfl, fun t h0 => ?_⟩
  · simp only [normalizeParsed] at hcontra
    rcases hn : normalize { status := status, reason := reason, body := body, url := url } with ⟨resp, msg⟩
    rw [hn] at hcontra
    cases msg <;> simp at hcontra
  · unfold Controller.requestWithRetry
    rw [h0]

/-- C7 witness: a transport whose first attempt fails with the
malformed-response kind surfaces it after exactly one attempt, and the
404-page scenario (body "404 Not Found", unparseable) normalizes to that
kind. -/
theorem C7_malformed_response_no_retry_witness :
    Controller.requestWithRetry
        (fun _ => AttemptOutcome.failure (α := Response) APIFailure.malformedResponse)
      = (Except.error APIFailure.malformedResponse, 1) :=
  (C7_malformed_response_no_retry 404 "Not Found" "https://h/api/4/zone").2.2.2
    (fun _ => AttemptOutcome.failure APIFailure.malformedResponse) rfl

/-- Helper: a key absent from the left summand looks up in the right. -/
theorem lookup_append_left_none {α β : Type} [BEq α] (a : α)
    (l₁ l₂ : List (α × β)) (h : List.lookup a l₁ = none) :
    List.lookup a (l₁ ++ l₂) = List.lookup a l₂ := by
  induction l₁ with
  | nil => simp
  | cons p l ih =>
      rcases p with ⟨k, v⟩
      rw [List.cons_append, List.lookup_cons]
      rw [List.lookup_cons] at h
      cases hk : (a == k) with
      | true => rw [hk] at h; exact Option.noConfusion h
      | false =>
          rw [hk] at h
          exact ih h

/-- Helper: a key that looks up to `none` is not among the stored keys. -/
theorem not_mem_keys_of_lookup_none {β : Type} (a : String)
    (l : List (String × β)) (h : List.lookup a l = none) :
    a ∉ l.map Prod.fst := by
  induction l with
  | nil => simp
  | cons p l ih =>
      rcases p with ⟨k, v⟩
      rw [List.lookup_cons] at h
      cases hk : (a == k) with
      | true => rw [hk] at h; exact Option.noConfusion h
      | false =>
          rw [hk] at h
          simp only [List.map_cons, List.mem_cons]
          rintro (hak | hmem)
          · rw [hak] at hk
            simp at hk
          · exact ih h hmem

/-- C4: loading the same device twice via `load_local` with identical
arguments is idempotent — the second load is a no-op returning the
already-registered Controller and the registry keeps one entry per device
identity (keys stay pairwise distinct); moreover any later load whose
handshake reports the same MAC — even from a different host/port — is the
same no-op, so duplication is detected by device identity, not address. -/
theorem C4_load_local_idempotent (env : LocalLoginEnv) (client : Client)
    (host password : String) (port : Nat) (use_ssl : Bool) :
    (Client.load_local env
        (Client.load_local env client host password port use_ssl).1
        host password port use_ssl
      = Client.load_local env client host password port use_ssl) ∧
    ((client.controllers.map Prod.fst).Nodup →
        ((Client.load_local env client host password port use_ssl).1.controllers.map
            Prod.fst).Nodup) ∧
    (∀ (host2 password2 : String) (port2 : Nat) (ssl2 : Bool),
        (env.handshake host2 password2 port2 ssl2).2.mac
            = (env.handshake host password port use_ssl).2.mac →
        Client.load_local env
            (Client.load_local env client host password port use_ssl).1
            host2 password2 port2 ssl2
          = Client.load_local env client host password port use_ssl) := by
  have key : ∀ (host2 password2 : String) (port2 : Nat) (ssl2 : Bool),
      (env.handshake host2 password2 port2 ssl2).2.mac
          = (env.handshake host password port use_ssl).2.mac →
      Client.load_local env
          (Client.load_local env client host password port use_ssl).1
          host2 password2 port2 ssl2
        = Client.load_local env client host password port use_ssl := by
    intro host2 password2 port2 ssl2 hmac
    cases hl : List.lookup (env.handshake host password port use_ssl).2.mac
        client.controllers with
    | some existing =>
        have h1 : Client.load_local env client host password port use_ssl
            = (client, existing) := by
          unfold Client.load_local
          rw [hl]
        rw [h1]
        unfold Client.load_local
        rw [hmac, hl]
    | none =>
        have h1 : Client.load_local env client host password port use_ssl
            = ({ controllers := client.controllers
                  ++ [((env.handshake host password port use_ssl).2.mac,
                       newLocalController env host password port use_ssl)] },
               newLocalController env host password port use_ssl) := by
          unfold Client.load_local
          rw [hl]
        rw [h1]
        unfold Client.load_local
        rw [hmac]
        rw [lookup_append_left_none _ _ _ hl]
        simp [List.lookup_cons]
  refine ⟨key host password port use_ssl rfl, fun hnd => ?_, key⟩
  cases hl : List.lookup (env.handshake host password port use_ssl).2.mac
      client.controllers with
  | some existing =>
      unfold Client.load_local
      rw [hl]
      exact hnd
  | none =>
      unfold Client.load_local
      rw [hl]
      simp only [List.map_append]
      rw [List.nodup_append]
      refine ⟨hnd, by simp, ?_⟩
      intro a ha hb
      have hm : a = (env.handshake host password port use_ssl).2.mac := by
        simpa using hb
      rw [hm] at ha
      exact not_mem_keys_of_lookup_none _ _ hl ha

/-- C4 witness: after loading a device at 192.168.1.100:8081, a second load
reaching the same device (same MAC) at a different host and port is a
no-op returning the registered Controller. -/
theorem C4_load_local_idempotent_witness :
    Client.load_local
        ⟨fun _ _ _ _ => (("12345abcdef", 100),
            { mac := "ab:cd:ef:12:34:56", name := "My House", hwVer := "3",
              swVer := "4.0.925", apiVer := "4.5.0" })⟩
        (Client.load_local
            ⟨fun _ _ _ _ => (("12345abcdef", 100),
                { mac := "ab:cd:ef:12:34:56", name := "My House", hwVer := "3",
                  swVer := "4.0.925", apiVer := "4.5.0" })⟩
            ⟨[]⟩ "192.168.1.100" "the_password_123" 8081 false).1
        "10.0.0.7" "the_password_123" 8080 true
      = Client.load_local
          ⟨fun _ _ _ _ => (("12345abcdef", 100),
              { mac := "ab:cd:ef:12:34:56", name := "My House", hwVer := "3",
                swVer := "4.0.925", apiVer := "4.5.0" })⟩
          ⟨[]⟩ "192.168.1.100" "the_password_123" 8081 false :=
  (C4_load_local_idempotent
      ⟨fun _ _ _ _ => (("12345abcdef", 100),
          { mac := "ab:cd:ef:12:34:56", name := "My House", hwVer := "3",
            swVer := "4.0.925", apiVer := "4.5.0" })⟩
      ⟨[]⟩ "192.168.1.100" "the_password_123" 8081 false).2.2
    "10.0.0.7" "the_password_123" 8080 true rfl

end Regenmaschine
